import Mathlib

/-!
Shallow embedding of the connection lifecycle manager of
`src/app.js` (the `ConnectionClient` class, lines 299–532), together with
the transport classification rule `_detectConnectionType` and the
reconnect-delay computation `scheduleReconnect`.

Modelling conventions:
* Machine integers do not occur; the reconnect delay uses `ℚ` for the
  millisecond arithmetic (`Math.random()` is an arbitrary rational in
  `[0,1)` supplied as a parameter).
* The two transport objects (native `WebSocket` and the Socket.IO
  client socket) are modelled by a `Transport` record carrying the kind
  and a status `connecting / open / closed`; `readyState === OPEN`
  (resp. the Socket.IO `connected` flag) reads as
  `kind = websocket ∧ status = open` (resp. `kind = socketio ∧
  status = open`), since reading the other kind's property yields
  `undefined`, which is falsy.
* Every transport ever constructed is kept in a list, so that the
  "at most one non-closed transport" invariant can be stated about all
  of them, including transports the manager no longer references.
* Observer callbacks and `Log` calls are modelled as an event list
  emitted by each step.
-/

namespace WsClient

/-- The two wire protocols: `websocket` is the spec's `line-socket`,
`socketio` the spec's `event-socket`. -/
inductive TransportKind where
  | websocket
  | socketio
  deriving DecidableEq, Repr

/-- Status of a constructed transport: `connecting` (WebSocket
CONNECTING / Socket.IO not yet connected), `open` (WebSocket OPEN /
Socket.IO connected), `closed`. -/
inductive TransportStatus where
  | connecting
  | opened
  | closed
  deriving DecidableEq, Repr

/-- A constructed transport object (a `WebSocket` or Socket.IO socket). -/
structure Transport where
  kind : TransportKind
  status : TransportStatus
  deriving DecidableEq, Repr

/-- Events visible outside the manager: `Log` lines and observer
callbacks. `nativeSend` records the handoff of outbound text to the
transport's native send/emit. -/
inductive Event where
  | warnLog (msg : String)
  | errorLog (msg : String)
  | infoLog (msg : String)
  | rx (text : String)
  | tx (text : String)
  | obsOpen
  | obsClose
  | obsMessage (text : String)
  | obsError
  | nativeSend (text : String)
  deriving DecidableEq, Repr

/-- State of a `ConnectionClient` instance plus the external
configuration it reads (`App.state.autoReconnect`,
`App.state.reconnectDelay`).  `transports` lists every transport ever
constructed; `connection` is the index of the one `this.connection`
references, if any.  `lastDelay` records the delay value passed to the
most recent `setTimeout` (ghost field for the delay claims). -/
structure ClientState where
  transports : List Transport
  connection : Option Nat
  connectionType : Option TransportKind
  manualClose : Bool
  attempt : Nat
  pendingTimer : Bool
  lastDelay : Option ℚ
  autoReconnect : Bool
  reconnectDelay : ℚ
  deriving DecidableEq, Repr

/-- The freshly constructed client: `connection = null`,
`connectionType = null`, `_manualClose = false`, `_attempt = 0`,
no reconnect timer. -/
def initState (autoReconnect : Bool) (reconnectDelay : ℚ) : ClientState :=
  { transports := []
    connection := none
    connectionType := none
    manualClose := false
    attempt := 0
    pendingTimer := false
    lastDelay := none
    autoReconnect := autoReconnect
    reconnectDelay := reconnectDelay }

/-- Predicate `charsLead hay needle` : `needle` begins `hay` (character lists). -/
def charsLead : List Char → List Char → Bool
  | _, [] => true
  | [], _ :: _ => false
  | c :: cs, d :: ds => c == d && charsLead cs ds

/-- Predicate `charsHave hay needle` : `needle` occurs contiguously in `hay`. -/
def charsHave : List Char → List Char → Bool
  | [], needle => charsLead [] needle
  | c :: cs, needle => charsLead (c :: cs) needle || charsHave cs needle

/-- JavaScript `hay.includes(needle)` for strings. -/
def strIncludes (hay needle : String) : Bool :=
  charsHave hay.data needle.data

/-- JavaScript `hay.startsWith(needle)`. -/
def strBegins (hay needle : String) : Bool :=
  charsLead hay.data needle.data

/-- JavaScript `url.toLowerCase()` (ASCII letters, which is all the
classification rule inspects). -/
def strLower (s : String) : String :=
  ⟨s.data.map Char.toLower⟩

/-- Function `ConnectionClient._detectConnectionType` (app.js lines 314–322):
lowercase the URL; if it contains `socket.io` or starts with `http://`
or `https://`, use Socket.IO, otherwise native WebSocket. -/
def detectConnectionType (url : String) : TransportKind :=
  let lowerUrl := strLower url
  if strIncludes lowerUrl "socket.io" || strBegins lowerUrl "http://" ||
      strBegins lowerUrl "https://" then
    TransportKind.socketio
  else
    TransportKind.websocket

/-- The delay computed by `scheduleReconnect` (app.js lines 457–466):
`base = Number(App.state.reconnectDelay) || 1500`,
`jitter = Math.random() * 250`, `backoff = min(8000, attempt * 300)`,
`delay = base + jitter + backoff`.  `jitter` is passed in already
multiplied. -/
def scheduleDelay (reconnectDelay : ℚ) (jitter : ℚ) (attempt : Nat) : ℚ :=
  (if reconnectDelay = 0 then 1500 else reconnectDelay) + jitter +
    min 8000 ((attempt : ℚ) * 300)

/-- Method `ConnectionClient.scheduleReconnect` (app.js lines 457–466): cancel
any pending timer, compute the delay, increment `_attempt`, start a
fresh timer.  `jitter = Math.random() * 250` is an input. -/
def scheduleReconnect (s : ClientState) (jitter : ℚ) :
    ClientState × List Event :=
  let delay := scheduleDelay s.reconnectDelay jitter s.attempt
  ({ s with attempt := s.attempt + 1
            pendingTimer := true
            lastDelay := some delay },
    [Event.warnLog "Reconnecting"])

/-- The externally observable operations on a `ConnectionClient`
instance and the platform notifications its handlers receive.
`jitter` arguments stand for `Math.random() * 250` at the moment the
corresponding handler runs `scheduleReconnect`. -/
inductive Op where
  /-- Call of `connect()` (app.js lines 324–337) with transport construction
  succeeding; `url` is the value `this.getUrl()` resolves to. -/
  | connectOk (url : String)
  /-- Call of `connect()` whose transport construction throws, landing in the
  `catch` of `_connectWebSocket` / `_connectSocketIO`
  (app.js lines 369–372 and 451–454). -/
  | connectFail (url : String) (jitter : ℚ)
  /-- The native `open` notification of WebSocket transport number `i`,
  or the `connect` notification of Socket.IO transport number `i`
  (app.js lines 345–349 and 403–407). -/
  | transportOpen (i : Nat)
  /-- The native `close` notification of WebSocket transport number `i`,
  or the `disconnect` notification of Socket.IO transport number `i`
  (app.js lines 362–368 and 437–443). -/
  | transportClose (i : Nat) (jitter : ℚ)
  /-- The `connect_error` notification of Socket.IO transport number `i`
  (app.js lines 445–450). -/
  | ioConnectError (i : Nat) (jitter : ℚ)
  /-- The native `error` notification of transport number `i`
  (app.js lines 357–360 and 432–435). -/
  | transportError (i : Nat)
  /-- A text `message` notification of WebSocket transport number `i`
  (app.js lines 351–355); `data` is the string payload `ev.data`. -/
  | wsMessage (i : Nat) (data : String)
  /-- A string `message` notification of Socket.IO transport number `i`
  (app.js lines 409–414). -/
  | ioMessage (i : Nat) (data : String)
  /-- Call of `disconnect()` (app.js lines 468–482). -/
  | disconnect
  /-- The pending reconnect timer fires and runs `connect()`
  (app.js line 465); the construction succeeds. -/
  | timerFire (url : String)
  deriving DecidableEq, Repr

/-- Expression `String(ev.data || "")` applied to a string payload: the empty
string is falsy and is replaced by `""`; `String` is the identity on
strings. -/
def wsMessageText (data : String) : String :=
  if data = "" then "" else data

/-- The body of `connect()` when transport construction succeeds: clear
`_manualClose`, classify the URL, construct the transport of that kind
(initially connecting) and store it in `this.connection`. -/
def connectStep (s : ClientState) (url : String) : ClientState × List Event :=
  if url = "" then
    (s, [Event.warnLog "No URL configured"])
  else
    let kind := detectConnectionType url
    let s1 := { s with manualClose := false, connectionType := some kind }
    ({ s1 with
        transports := s1.transports ++ [{ kind := kind, status := TransportStatus.connecting }]
        connection := some s1.transports.length },
      [Event.infoLog "Connecting"])

/-- The body of `connect()` when transport construction throws: the
`catch` logs an error and calls `scheduleReconnect()` unconditionally;
`this.connection` is left untouched. -/
def connectFailStep (s : ClientState) (url : String) (jitter : ℚ) :
    ClientState × List Event :=
  if url = "" then
    (s, [Event.warnLog "No URL configured"])
  else
    let kind := detectConnectionType url
    let s1 := { s with manualClose := false, connectionType := some kind }
    let r := scheduleReconnect s1 jitter
    (r.1, Event.errorLog "Connection failed" :: r.2)

/-- One step of the manager.  Notifications for a transport index that
does not exist, or that the transport's current status cannot emit,
leave the state unchanged (the platform never delivers them). -/
def step (s : ClientState) : Op → ClientState × List Event
  | Op.connectOk url => connectStep s url
  | Op.connectFail url jitter => connectFailStep s url jitter
  | Op.transportOpen i =>
    match s.transports[i]? with
    | some t =>
      if t.status = TransportStatus.connecting then
        ({ s with
            transports := s.transports.set i { t with status := TransportStatus.opened }
            attempt := 0 },
          [Event.infoLog "Connected", Event.obsOpen])
      else (s, [])
    | none => (s, [])
  | Op.transportClose i jitter =>
    match s.transports[i]? with
    | some t =>
      if t.status ≠ TransportStatus.closed then
        let s1 := { s with
          transports := s.transports.set i { t with status := TransportStatus.closed } }
        if !s1.manualClose && s1.autoReconnect then
          let r := scheduleReconnect s1 jitter
          (r.1, Event.warnLog "Closed" :: Event.obsClose :: r.2)
        else
          (s1, [Event.warnLog "Closed", Event.obsClose])
      else (s, [])
    | none => (s, [])
  | Op.ioConnectError i jitter =>
    match s.transports[i]? with
    | some t =>
      if t.kind = TransportKind.socketio ∧ t.status = TransportStatus.connecting then
        let s1 := { s with
          transports := s.transports.set i { t with status := TransportStatus.closed } }
        if !s1.manualClose && s1.autoReconnect then
          let r := scheduleReconnect s1 jitter
          (r.1, Event.errorLog "Connection error" :: r.2)
        else
          (s1, [Event.errorLog "Connection error"])
      else (s, [])
    | none => (s, [])
  | Op.transportError i =>
    match s.transports[i]? with
    | some _ => (s, [Event.errorLog "Error", Event.obsError])
    | none => (s, [])
  | Op.wsMessage i data =>
    match s.transports[i]? with
    | some t =>
      if t.kind = TransportKind.websocket then
        (s, [Event.rx (wsMessageText data), Event.obsMessage (wsMessageText data)])
      else (s, [])
    | none => (s, [])
  | Op.ioMessage i data =>
    match s.transports[i]? with
    | some t =>
      if t.kind = TransportKind.socketio then
        (s, [Event.rx data, Event.obsMessage data])
      else (s, [])
    | none => (s, [])
  | Op.disconnect =>
    let s1 := { s with manualClose := true, pendingTimer := false }
    match s1.connection with
    | none => ({ s1 with connection := none }, [])
    | some i =>
      match s1.connectionType, s1.transports[i]? with
      | some TransportKind.socketio, some t =>
        -- `socket.disconnect()` fires the socket's `disconnect` handler
        -- (app.js lines 437–443) synchronously when the socket is
        -- connected: it logs a warning and calls `onClose`; `_manualClose`
        -- is already true at that point, so nothing is rescheduled.
        ({ s1 with
            transports := s1.transports.set i { t with status := TransportStatus.closed }
            connection := none },
          if t.status = TransportStatus.opened then
            [Event.warnLog "Disconnected", Event.obsClose]
          else [])
      | some TransportKind.websocket, some t =>
        if t.status = TransportStatus.opened ∨ t.status = TransportStatus.connecting then
          ({ s1 with
              transports := s1.transports.set i { t with status := TransportStatus.closed }
              connection := none }, [])
        else ({ s1 with connection := none }, [])
      | _, _ => ({ s1 with connection := none }, [])
  | Op.timerFire url =>
    if s.pendingTimer then
      connectStep { s with pendingTimer := false } url
    else
      (s, [])

/-- Run a sequence of operations from a state. -/
def run (s : ClientState) : List Op → ClientState
  | [] => s
  | op :: ops => run (step s op).1 ops

/-- The Socket.IO `connected` flag read off a connection object: `true`
exactly on a connected Socket.IO socket (on a WebSocket object the
property is `undefined`, hence falsy). -/
def connectedFlag (t : Transport) : Bool :=
  t.kind = TransportKind.socketio ∧ t.status = TransportStatus.opened

/-- Test `readyState === WebSocket.OPEN` read off a connection object
(`undefined` on a Socket.IO socket, hence never `OPEN`). -/
def readyStateIsOpen (t : Transport) : Bool :=
  t.kind = TransportKind.websocket ∧ t.status = TransportStatus.opened

/-- Look up the transport `this.connection` references. -/
def refTransport (s : ClientState) (i : Nat) : Transport :=
  s.transports.getD i { kind := TransportKind.websocket, status := TransportStatus.closed }

/-- Result of `send`: the returned boolean, the emitted events, and the
(unchanged) manager state — `send` assigns no instance field and queues
nothing. -/
structure SendResult where
  ok : Bool
  events : List Event
  state : ClientState
  deriving DecidableEq, Repr

/-- Method `ConnectionClient.send` (app.js lines 484–521).  For the Socket.IO
kind the native handoff is `emit` (either of a parsed structured event
or of a plain `message` event); both branches log `Log.tx(text)` with
the original text, which is all the claims inspect, so the handoff is
recorded as one `nativeSend text` event. -/
def send (s : ClientState) (text : String) : SendResult :=
  match s.connection with
  | none => { ok := false, events := [Event.warnLog "Send failed: not connected"], state := s }
  | some i =>
    match s.connectionType with
    | some TransportKind.socketio =>
      if connectedFlag (refTransport s i) then
        { ok := true, events := [Event.nativeSend text, Event.tx text], state := s }
      else
        { ok := false
          events := [Event.warnLog "Send failed: Socket.IO not connected"]
          state := s }
    | some TransportKind.websocket =>
      if readyStateIsOpen (refTransport s i) then
        { ok := true, events := [Event.nativeSend text, Event.tx text], state := s }
      else
        { ok := false
          events := [Event.warnLog "Send failed: connection not open"]
          state := s }
    | none => { ok := false, events := [], state := s }

/-- Method `ConnectionClient.isOpen` (app.js lines 523–531). -/
def isOpen (s : ClientState) : Bool :=
  match s.connection with
  | none => false
  | some i =>
    match s.connectionType with
    | some TransportKind.socketio => connectedFlag (refTransport s i)
    | some TransportKind.websocket => readyStateIsOpen (refTransport s i)
    | none => false

/-- A transport that is connecting or open ("live"). -/
def isLive (t : Transport) : Bool :=
  t.status ≠ TransportStatus.closed

/-- Number of constructed transports that are not closed. -/
def nonClosedCount (s : ClientState) : Nat :=
  s.transports.countP isLive

/-- All constructed transports are closed. -/
def allClosed (s : ClientState) : Bool :=
  s.transports.all (fun t => t.status = TransportStatus.closed)

/-- Operations that run the body of `connect()` (an explicit call or a
timer-fired reconnect) and may therefore construct a transport. -/
def isConnectStep : Op → Bool
  | Op.connectOk _ => true
  | Op.timerFire _ => true
  | _ => false

/-- A run discipline: every `connect()`-running operation is issued in a
state whose transports are all closed. -/
def quiescentConnects : ClientState → List Op → Bool
  | _, [] => true
  | s, op :: ops =>
    (!isConnectStep op || allClosed s) && quiescentConnects (step s op).1 ops

/-- Whenever the manager references a connection, `connectionType` is
set (it is assigned before the transport is constructed and never
cleared). -/
def connTyped (s : ClientState) : Bool :=
  s.connection.isNone || s.connectionType.isSome

theorem countP_set_shift (p : Transport → Bool) :
    ∀ (l : List Transport) (i : Nat) (x : Transport) (h : i < l.length),
      (l.set i x).countP p + (if p (l.get ⟨i, h⟩) then 1 else 0) =
        l.countP p + (if p x then 1 else 0) := by
  intro l
  induction l with
  | nil => intro i x h; exact absurd h (Nat.not_lt_zero i)
  | cons a as ih =>
    intro i x h
    cases i with
    | zero =>
      simp only [List.set, List.get, List.countP_cons]
      omega
    | succ n =>
      have hn : n < as.length := Nat.lt_of_succ_lt_succ h
      simp only [List.set, List.get, List.countP_cons]
      have := ih n x hn
      omega

theorem countP_set_le_of_false (p : Transport → Bool) (l : List Transport)
    (i : Nat) (x : Transport) (hx : p x = false) :
    (l.set i x).countP p ≤ l.countP p := by
  by_cases h : i < l.length
  · have := countP_set_shift p l i x h
    simp only [hx, Bool.false_eq_true, if_false] at this
    omega
  · rw [List.set_eq_of_length_le (Nat.le_of_not_lt h)]

theorem countP_set_le_of_get (p : Transport → Bool) (l : List Transport)
    (i : Nat) (x : Transport) (h : i < l.length)
    (hg : p (l.get ⟨i, h⟩) = true) :
    (l.set i x).countP p ≤ l.countP p := by
  have := countP_set_shift p l i x h
  simp only [hg, if_true] at this
  by_cases hx : p x = true
  · simp only [hx, if_true] at this; omega
  · simp only [Bool.not_eq_true] at hx
    simp only [hx, Bool.false_eq_true, if_false] at this; omega

theorem allClosed_iff (s : ClientState) :
    allClosed s = true ↔ nonClosedCount s = 0 := by
  unfold allClosed nonClosedCount
  rw [List.all_eq_true, List.countP_eq_zero]
  constructor
  · intro h a ha
    have := h a ha
    simp only [decide_eq_true_eq] at this
    simp [isLive, this]
  · intro h a ha
    have := h a ha
    simp only [isLive, decide_not, Bool.not_eq_true, decide_eq_false_iff_not,
      Decidable.not_not] at this ⊢
    simpa using this

theorem nonClosedCount_connectFailStep (s : ClientState) (url : String) (j : ℚ) :
    nonClosedCount (connectFailStep s url j).1 = nonClosedCount s := by
  by_cases hu : url = "" <;>
    simp [connectFailStep, hu, scheduleReconnect, nonClosedCount]

theorem liveOf_some {l : List Transport} {i : Nat} {t : Transport}
    (hti : l[i]? = some t) :
    ∃ h : i < l.length, l.get ⟨i, h⟩ = t := by
  rcases List.getElem?_eq_some.mp hti with ⟨h, hg⟩
  exact ⟨h, by simpa [List.get_eq_getElem] using hg⟩

theorem nonClosedCount_step_le (s : ClientState) (op : Op)
    (h : isConnectStep op = false) :
    nonClosedCount (step s op).1 ≤ nonClosedCount s := by
  cases op with
  | connectOk url => simp [isConnectStep] at h
  | timerFire url => simp [isConnectStep] at h
  | connectFail url j =>
    refine le_of_eq ?_
    simp only [step]
    rw [nonClosedCount_connectFailStep]
  | transportOpen i =>
    rcases hti : s.transports[i]? with _ | t
    · simp [step, hti]
    · rcases liveOf_some hti with ⟨hlen, hg⟩
      by_cases hst : t.status = TransportStatus.connecting
      · simp only [step, hti, hst, if_true]
        refine countP_set_le_of_get isLive s.transports i _ hlen ?_
        rw [hg]
        simp [isLive, hst]
      · simp [step, hti, hst]
  | transportClose i j =>
    rcases hti : s.transports[i]? with _ | t
    · simp [step, hti]
    · by_cases hst : t.status = TransportStatus.closed
      · simp [step, hti, hst]
      · have hred : nonClosedCount (step s (Op.transportClose i j)).1 =
            (s.transports.set i { t with status := TransportStatus.closed }).countP isLive := by
          simp only [step, hti, hst, ne_eq, not_false_iff, if_true]
          by_cases hb : (!s.manualClose && s.autoReconnect) = true <;>
            simp [hb, scheduleReconnect, nonClosedCount]
        rw [hred]
        exact countP_set_le_of_false isLive s.transports i _ (by simp [isLive])
  | ioConnectError i j =>
    rcases hti : s.transports[i]? with _ | t
    · simp [step, hti]
    · by_cases hks : t.kind = TransportKind.socketio ∧ t.status = TransportStatus.connecting
      · have hred : nonClosedCount (step s (Op.ioConnectError i j)).1 =
            (s.transports.set i { t with status := TransportStatus.closed }).countP isLive := by
          simp only [step, hti, hks, if_true]
          by_cases hb : (!s.manualClose && s.autoReconnect) = true <;>
            simp [hb, scheduleReconnect, nonClosedCount]
        rw [hred]
        exact countP_set_le_of_false isLive s.transports i _ (by simp [isLive])
      · simp [step, hti, hks]
  | transportError i =>
    rcases hti : s.transports[i]? with _ | t <;> simp [step, hti]
  | wsMessage i data =>
    rcases hti : s.transports[i]? with _ | t
    · simp [step, hti]
    · by_cases hk : t.kind = TransportKind.websocket <;> simp [step, hti, hk]
  | ioMessage i data =>
    rcases hti : s.transports[i]? with _ | t
    · simp [step, hti]
    · by_cases hk : t.kind = TransportKind.socketio <;> simp [step, hti, hk]
  | disconnect =>
    rcases hc : s.connection with _ | i
    · simp [step, hc, nonClosedCount]
    · rcases hk : s.connectionType with _ | k
      · simp [step, hc, hk, nonClosedCount]
      · rcases hti : s.transports[i]? with _ | t
        · cases k <;> simp [step, hc, hk, hti, nonClosedCount]
        · cases k with
          | socketio =>
            simp only [step, hc, hk, hti, nonClosedCount]
            exact countP_set_le_of_false isLive s.transports i _ (by simp [isLive])
          | websocket =>
            by_cases hst : t.status = TransportStatus.opened ∨
                t.status = TransportStatus.connecting
            · simp only [step, hc, hk, hti, hst, if_true, nonClosedCount]
              exact countP_set_le_of_false isLive s.transports i _ (by simp [isLive])
            · simp [step, hc, hk, hti, hst, nonClosedCount]

theorem nonClosedCount_connectStep_le (s : ClientState) (url : String)
    (h : allClosed s = true) :
    nonClosedCount (connectStep s url).1 ≤ 1 := by
  rw [allClosed_iff] at h
  simp only [nonClosedCount] at h
  by_cases hu : url = ""
  · simp [connectStep, hu, nonClosedCount]
    omega
  · simp [connectStep, hu, nonClosedCount, List.countP_append,
      List.countP_cons, isLive]
    intro a ha
    have := (List.countP_eq_zero.mp h) a ha
    simpa [isLive] using this

theorem quiescent_run_le (ops : List Op) : ∀ s : ClientState,
    nonClosedCount s ≤ 1 → quiescentConnects s ops = true →
    nonClosedCount (run s ops) ≤ 1 := by
  induction ops with
  | nil => intro s h _; exact h
  | cons op ops ih =>
    intro s h hq
    simp only [quiescentConnects, Bool.and_eq_true, Bool.or_eq_true,
      Bool.not_eq_true'] at hq
    obtain ⟨hq1, hq2⟩ := hq
    simp only [run]
    refine ih _ ?_ hq2
    by_cases hc : isConnectStep op = true
    · have hac : allClosed s = true := by
        rcases hq1 with h1 | h1
        · rw [hc] at h1; cases h1
        · exact h1
      cases op with
      | connectOk url =>
        simpa [step] using nonClosedCount_connectStep_le s url hac
      | timerFire url =>
        by_cases hp : s.pendingTimer = true
        · have hac2 : allClosed { s with pendingTimer := false } = true := hac
          simpa [step, hp] using
            nonClosedCount_connectStep_le { s with pendingTimer := false } url hac2
        · simp only [Bool.not_eq_true] at hp
          simpa [step, hp] using h
      | connectFail url j => simp [isConnectStep] at hc
      | transportOpen i => simp [isConnectStep] at hc
      | transportClose i j => simp [isConnectStep] at hc
      | ioConnectError i j => simp [isConnectStep] at hc
      | transportError i => simp [isConnectStep] at hc
      | wsMessage i d => simp [isConnectStep] at hc
      | ioMessage i d => simp [isConnectStep] at hc
      | disconnect => simp [isConnectStep] at hc
    · exact le_trans (nonClosedCount_step_le s op (by simpa using hc)) h

theorem step_disconnect_basic (s : ClientState) :
    (step s Op.disconnect).1.manualClose = true ∧
    (step s Op.disconnect).1.pendingTimer = false ∧
    (step s Op.disconnect).1.connection = none := by
  rcases hc : s.connection with _ | i
  · simp [step, hc]
  · rcases hk : s.connectionType with _ | k
    · rcases hti : s.transports[i]? with _ | t <;> simp [step, hc, hk, hti]
    · cases k with
      | websocket =>
        rcases hti : s.transports[i]? with _ | t
        · simp [step, hc, hk, hti]
        · by_cases hst : t.status = TransportStatus.opened ∨
              t.status = TransportStatus.connecting <;>
            simp [step, hc, hk, hti, hst]
      | socketio =>
        rcases hti : s.transports[i]? with _ | t <;> simp [step, hc, hk, hti]

theorem connTyped_step (s : ClientState) (op : Op) (h : connTyped s = true) :
    connTyped (step s op).1 = true := by
  cases op with
  | connectOk url =>
    by_cases hu : url = ""
    · simpa [step, connectStep, hu, connTyped] using h
    · simp [step, connectStep, hu, connTyped]
  | connectFail url j =>
    by_cases hu : url = ""
    · simpa [step, connectFailStep, hu, connTyped] using h
    · simp [step, connectFailStep, hu, scheduleReconnect, connTyped]
  | transportOpen i =>
    rcases hti : s.transports[i]? with _ | t
    · simpa [step, hti] using h
    · by_cases hst : t.status = TransportStatus.connecting <;>
        simpa [step, hti, hst, connTyped] using h
  | transportClose i j =>
    rcases hti : s.transports[i]? with _ | t
    · simpa [step, hti] using h
    · by_cases hst : t.status = TransportStatus.closed
      · simpa [step, hti, hst] using h
      · by_cases hb : (!s.manualClose && s.autoReconnect) = true <;>
          simpa [step, hti, hst, hb, scheduleReconnect, connTyped] using h
  | ioConnectError i j =>
    rcases hti : s.transports[i]? with _ | t
    · simpa [step, hti] using h
    · by_cases hks : t.kind = TransportKind.socketio ∧
          t.status = TransportStatus.connecting
      · by_cases hb : (!s.manualClose && s.autoReconnect) = true <;>
          simpa [step, hti, hks, hb, scheduleReconnect, connTyped] using h
      · simpa [step, hti, hks] using h
  | transportError i =>
    rcases hti : s.transports[i]? with _ | t <;> simpa [step, hti] using h
  | wsMessage i d =>
    rcases hti : s.transports[i]? with _ | t
    · simpa [step, hti] using h
    · by_cases hk : t.kind = TransportKind.websocket <;>
        simpa [step, hti, hk] using h
  | ioMessage i d =>
    rcases hti : s.transports[i]? with _ | t
    · simpa [step, hti] using h
    · by_cases hk : t.kind = TransportKind.socketio <;>
        simpa [step, hti, hk] using h
  | disconnect =>
    simp [connTyped, (step_disconnect_basic s).2.2]
  | timerFire url =>
    by_cases hp : s.pendingTimer = true
    · by_cases hu : url = ""
      · simpa [step, hp, connectStep, hu, connTyped] using h
      · simp [step, hp, connectStep, hu, connTyped]
    · simp only [Bool.not_eq_true] at hp
      simpa [step, hp] using h

theorem connTyped_run_aux (ops : List Op) : ∀ s : ClientState,
    connTyped s = true → connTyped (run s ops) = true := by
  induction ops with
  | nil => intro s h; exact h
  | cons op ops ih =>
    intro s h
    simp only [run]
    exact ih _ (connTyped_step s op h)

theorem connTyped_run (ar : Bool) (rd : ℚ) (ops : List Op) :
    connTyped (run (initState ar rd) ops) = true :=
  connTyped_run_aux ops _ (by simp [connTyped, initState])

theorem detect_eq_socketio_iff (u : String) :
    detectConnectionType u = TransportKind.socketio ↔
      (strIncludes (strLower u) "socket.io" = true ∨
       strBegins (strLower u) "http://" = true ∨
       strBegins (strLower u) "https://" = true) := by
  unfold detectConnectionType
  by_cases h : (strIncludes (strLower u) "socket.io" ||
      strBegins (strLower u) "http://" || strBegins (strLower u) "https://") = true
  · rw [if_pos h]
    simp only [true_iff]
    simpa [Bool.or_eq_true, or_assoc] using h
  · rw [if_neg h]
    constructor
    · intro hw; exact absurd hw (by decide)
    · intro hd; exact absurd (by simpa [Bool.or_eq_true, or_assoc] using hd) h

/-- C7: the transport classification is a pure, deterministic and
idempotent function of the target string; a target whose lowercased
form contains `socket.io` or starts with `http://` or `https://` is
classified Socket.IO (the spec's `event-socket`), every other target is
classified native WebSocket (`line-socket`); in particular
`"ws://host/x"` is `line-socket` and `"https://host"` is
`event-socket`. -/
theorem c7_transport_classification :
    detectConnectionType "ws://host/x" = TransportKind.websocket ∧
    detectConnectionType "https://host" = TransportKind.socketio ∧
    (∀ u : String, detectConnectionType u = detectConnectionType u) ∧
    (∀ u : String, detectConnectionType u = TransportKind.socketio ↔
      (strIncludes (strLower u) "socket.io" = true ∨
       strBegins (strLower u) "http://" = true ∨
       strBegins (strLower u) "https://" = true)) ∧
    (∀ u : String, detectConnectionType u ≠ TransportKind.socketio →
      detectConnectionType u = TransportKind.websocket) := by
  refine ⟨by decide, by decide, fun u => rfl, detect_eq_socketio_iff, fun u h => ?_⟩
  unfold detectConnectionType at h ⊢
  by_cases hc : (strIncludes (strLower u) "socket.io" ||
      strBegins (strLower u) "http://" || strBegins (strLower u) "https://") = true
  · rw [if_pos hc] at h; exact absurd rfl h
  · rw [if_neg hc]

/-- C7 witness: the classification theorem applied to a concrete
Socket.IO-style target. -/
theorem c7_witness :
    detectConnectionType "wss://dev/socket.io/x" = TransportKind.socketio :=
  (c7_transport_classification.2.2.2.1 "wss://dev/socket.io/x").mpr
    (Or.inl (by decide))

/-- C10: classification is case-insensitive — any two targets with the
same lowercasing classify identically, because the target is lowercased
before the scheme and substring tests; `"HTTPS://host"` and a target
containing `"SOCKET.IO"` classify as `event-socket`. -/
theorem c10_classification_case_insensitive :
    (∀ u v : String, strLower u = strLower v →
      detectConnectionType u = detectConnectionType v) ∧
    detectConnectionType "HTTPS://host" = TransportKind.socketio ∧
    detectConnectionType "ws://h/SOCKET.IO/" = TransportKind.socketio := by
  refine ⟨fun u v h => ?_, by decide, by decide⟩
  unfold detectConnectionType
  rw [h]

/-- C10 witness: the case-insensitivity theorem applied to a concrete
mixed-case variant. -/
theorem c10_witness :
    detectConnectionType "WS://HOST/X" = detectConnectionType "ws://host/x" :=
  c10_classification_case_insensitive.1 "WS://HOST/X" "ws://host/x" (by decide)

/-- C8: for the native-WebSocket (`line-socket`) kind, a `message`
notification with string payload `d` delivers exactly `d` to the
`onMessage` observer, byte for byte (`String(ev.data || "")` is the
identity on string payloads), and changes no manager state. -/
theorem c8_message_text_preserved (d : String) (s : ClientState) (i : Nat)
    (t : Transport) (hti : s.transports[i]? = some t)
    (hk : t.kind = TransportKind.websocket) :
    wsMessageText d = d ∧
    (step s (Op.wsMessage i d)).2 = [Event.rx d, Event.obsMessage d] ∧
    (step s (Op.wsMessage i d)).1 = s := by
  have hw : wsMessageText d = d := by
    unfold wsMessageText; split <;> simp_all
  refine ⟨hw, ?_, ?_⟩ <;> simp [step, hti, hk, hw]

/-- C8 witness: the round-trip theorem at a concrete payload on a
concrete reachable state. -/
theorem c8_witness :
    wsMessageText "key:value" = "key:value" ∧
    (step (run (initState true 1500) [Op.connectOk "ws://host/x"])
        (Op.wsMessage 0 "key:value")).2 =
      [Event.rx "key:value", Event.obsMessage "key:value"] ∧
    (step (run (initState true 1500) [Op.connectOk "ws://host/x"])
        (Op.wsMessage 0 "key:value")).1 =
      run (initState true 1500) [Op.connectOk "ws://host/x"] :=
  c8_message_text_preserved "key:value" _ 0
    { kind := TransportKind.websocket, status := TransportStatus.connecting }
    (by decide) rfl

/-- C9: `send(text)` returns `true` exactly when `isOpen()` returns
`true` in the same state, for both transport kinds (the Socket.IO
`connected` flag and the WebSocket `readyState === OPEN` test are read
identically by the two methods). -/
theorem c9_send_ok_iff_isOpen (s : ClientState) (text : String) :
    (send s text).ok = isOpen s := by
  rcases hc : s.connection with _ | i
  · simp [send, isOpen, hc]
  · rcases hk : s.connectionType with _ | k
    · simp [send, isOpen, hc, hk]
    · cases k with
      | websocket =>
        cases hx : readyStateIsOpen (refTransport s i) <;>
          simp [send, isOpen, hc, hk, hx]
      | socketio =>
        cases hx : connectedFlag (refTransport s i) <;>
          simp [send, isOpen, hc, hk, hx]

/-- C1 counterexample: a `connect()` call issued while the prior
transport is open constructs a second transport without closing the
first, leaving two non-closed transports. -/
theorem c1_counterexample :
    nonClosedCount (run (initState true 1500)
      [Op.connectOk "ws://host/x", Op.transportOpen 0,
       Op.connectOk "ws://host/x"]) = 2 := by
  decide

/-- C1 (amended): after any sequence of operations in which every
`connect()`-running operation (explicit call or timer-fired reconnect)
is issued while all previously constructed transports are closed, at
most one transport is in a non-closed state.  (A `connect()` issued
while a prior transport is connecting or open orphans that transport
without closing it, so the unrestricted invariant fails.) -/
theorem c1_single_transport_invariant (ar : Bool) (rd : ℚ) (ops : List Op)
    (h : quiescentConnects (initState ar rd) ops = true) :
    nonClosedCount (run (initState ar rd) ops) ≤ 1 :=
  quiescent_run_le ops _ (by simp [nonClosedCount, initState]) h

/-- C1 witness: the invariant theorem on a concrete
connect–open–disconnect–connect trace. -/
theorem c1_witness :
    nonClosedCount (run (initState true 1500)
      [Op.connectOk "ws://host/x", Op.transportOpen 0, Op.disconnect,
       Op.connectOk "ws://host/x"]) ≤ 1 :=
  c1_single_transport_invariant true 1500
    [Op.connectOk "ws://host/x", Op.transportOpen 0, Op.disconnect,
     Op.connectOk "ws://host/x"] (by decide)

/-- C3 counterexample: after an unintended close has scheduled a
reconnect (`attemptCount = 1`, timer pending), an explicit `connect()`
leaves `attemptCount = 1` and the timer still pending — the triple is
not reset to `{0, none, false}` on `connect()`. -/
theorem c3_counterexample :
    (run (initState true 1500) [Op.connectOk "ws://host/x",
      Op.transportClose 0 0, Op.connectOk "ws://host/x"]).attempt = 1 ∧
    (run (initState true 1500) [Op.connectOk "ws://host/x",
      Op.transportClose 0 0, Op.connectOk "ws://host/x"]).pendingTimer = true := by
  decide

/-- C3 (amended): `connect()` (with a non-empty target) resets only
`manualCloseRequested` to `false`, leaving `attemptCount` and any
pending reconnect timer unchanged; a successful open resets only
`attemptCount` to `0`, leaving the pending timer and
`manualCloseRequested` unchanged. -/
theorem c3_reset_behavior (s : ClientState) (url : String) (h : url ≠ "")
    (i : Nat) (t : Transport) (hti : s.transports[i]? = some t)
    (hst : t.status = TransportStatus.connecting) :
    (step s (Op.connectOk url)).1.manualClose = false ∧
    (step s (Op.connectOk url)).1.attempt = s.attempt ∧
    (step s (Op.connectOk url)).1.pendingTimer = s.pendingTimer ∧
    (step s (Op.transportOpen i)).1.attempt = 0 ∧
    (step s (Op.transportOpen i)).1.pendingTimer = s.pendingTimer ∧
    (step s (Op.transportOpen i)).1.manualClose = s.manualClose := by
  refine ⟨?_, ?_, ?_, ?_, ?_, ?_⟩ <;> simp [step, connectStep, h, hti, hst]

/-- C3 witness: the amended reset theorem on a concrete state with a
connecting transport. -/
theorem c3_witness :
    (step (run (initState true 1500) [Op.connectOk "ws://host/x"])
        (Op.connectOk "ws://host/x")).1.attempt =
      (run (initState true 1500) [Op.connectOk "ws://host/x"]).attempt ∧
    (step (run (initState true 1500) [Op.connectOk "ws://host/x"])
        (Op.transportOpen 0)).1.attempt = 0 := by
  have h := c3_reset_behavior
    (run (initState true 1500) [Op.connectOk "ws://host/x"]) "ws://host/x"
    (by decide) 0
    { kind := TransportKind.websocket, status := TransportStatus.connecting }
    (by decide) rfl
  exact ⟨h.2.1, h.2.2.2.1⟩

/-- C4 counterexample: with `autoReconnect = false`, an unintended
close schedules no reconnect, but a transport-construction failure
still schedules one — construction failure does not reschedule under
the same `manualCloseRequested`/`autoReconnect` conditions as a close. -/
theorem c4_counterexample :
    (initState false 1500).autoReconnect = false ∧
    (run (initState false 1500) [Op.connectFail "ws://host/x" 0]).pendingTimer = true ∧
    (run (initState false 1500)
      [Op.connectOk "ws://host/x", Op.transportClose 0 0]).pendingTimer = false := by
  decide

/-- C4 (amended): a transport-construction failure is absorbed by the
`catch` (the step is total, nothing propagates to the caller), logs an
error report, and unconditionally schedules a reconnect — incrementing
`attemptCount` and setting the timer regardless of
`manualCloseRequested` and `autoReconnect` — while leaving the
transport list and connection reference unchanged. -/
theorem c4_construction_failure (s : ClientState) (url : String) (j : ℚ)
    (h : url ≠ "") :
    (step s (Op.connectFail url j)).1.pendingTimer = true ∧
    (step s (Op.connectFail url j)).1.attempt = s.attempt + 1 ∧
    (step s (Op.connectFail url j)).1.manualClose = false ∧
    Event.errorLog "Connection failed" ∈ (step s (Op.connectFail url j)).2 ∧
    (step s (Op.connectFail url j)).1.transports = s.transports ∧
    (step s (Op.connectFail url j)).1.connection = s.connection := by
  refine ⟨?_, ?_, ?_, ?_, ?_, ?_⟩ <;>
    simp [step, connectFailStep, h, scheduleReconnect]

/-- C4 witness: the construction-failure theorem on the initial state
with auto-reconnect disabled. -/
theorem c4_witness :
    (step (initState false 1500) (Op.connectFail "ws://host/x" 0)).1.pendingTimer = true ∧
    (step (initState false 1500) (Op.connectFail "ws://host/x" 0)).1.attempt =
      (initState false 1500).attempt + 1 :=
  ⟨(c4_construction_failure (initState false 1500) "ws://host/x" 0 (by decide)).1,
   (c4_construction_failure (initState false 1500) "ws://host/x" 0 (by decide)).2.1⟩

theorem send_spec (s : ClientState) (text : String)
    (hct : connTyped s = true) :
    (isOpen s = false →
      (send s text).ok = false ∧
      (∃ m, Event.warnLog m ∈ (send s text).events) ∧
      (∀ u, Event.tx u ∉ (send s text).events) ∧
      (send s text).state = s) ∧
    (isOpen s = true →
      (send s text).ok = true ∧
      Event.nativeSend text ∈ (send s text).events ∧
      Event.tx text ∈ (send s text).events ∧
      (send s text).state = s) := by
  rcases hc : s.connection with _ | i
  · constructor
    · intro _
      exact ⟨by simp [send, hc],
        ⟨"Send failed: not connected", by simp [send, hc]⟩,
        fun u => by simp [send, hc], by simp [send, hc]⟩
    · intro hopen; simp [isOpen, hc] at hopen
  · rcases hk : s.connectionType with _ | k
    · simp [connTyped, hc, hk] at hct
    · cases k with
      | websocket =>
        cases hx : readyStateIsOpen (refTransport s i)
        · constructor
          · intro _
            exact ⟨by simp [send, hc, hk, hx],
              ⟨"Send failed: connection not open", by simp [send, hc, hk, hx]⟩,
              fun u => by simp [send, hc, hk, hx], by simp [send, hc, hk, hx]⟩
          · intro hopen; simp [isOpen, hc, hk, hx] at hopen
        · constructor
          · intro hopen; simp [isOpen, hc, hk, hx] at hopen
          · intro _
            exact ⟨by simp [send, hc, hk, hx], by simp [send, hc, hk, hx],
              by simp [send, hc, hk, hx], by simp [send, hc, hk, hx]⟩
      | socketio =>
        cases hx : connectedFlag (refTransport s i)
        · constructor
          · intro _
            exact ⟨by simp [send, hc, hk, hx],
              ⟨"Send failed: Socket.IO not connected", by simp [send, hc, hk, hx]⟩,
              fun u => by simp [send, hc, hk, hx], by simp [send, hc, hk, hx]⟩
          · intro hopen; simp [isOpen, hc, hk, hx] at hopen
        · constructor
          · intro hopen; simp [isOpen, hc, hk, hx] at hopen
          · intro _
            exact ⟨by simp [send, hc, hk, hx], by simp [send, hc, hk, hx],
              by simp [send, hc, hk, hx], by simp [send, hc, hk, hx]⟩

/-- C5: in every reachable client state, if no transport exists or the
transport is not open for its kind (`isOpen` is false), `send(text)`
returns `false`, emits a warning and no `tx` notification, and leaves
the state unchanged (nothing is queued); otherwise it returns `true`,
hands the text to the transport's native send and emits a `tx`
notification. -/
theorem c5_send_semantics (ar : Bool) (rd : ℚ) (ops : List Op) (text : String) :
    (isOpen (run (initState ar rd) ops) = false →
      (send (run (initState ar rd) ops) text).ok = false ∧
      (∃ m, Event.warnLog m ∈ (send (run (initState ar rd) ops) text).events) ∧
      (∀ u, Event.tx u ∉ (send (run (initState ar rd) ops) text).events) ∧
      (send (run (initState ar rd) ops) text).state = run (initState ar rd) ops) ∧
    (isOpen (run (initState ar rd) ops) = true →
      (send (run (initState ar rd) ops) text).ok = true ∧
      Event.nativeSend text ∈ (send (run (initState ar rd) ops) text).events ∧
      Event.tx text ∈ (send (run (initState ar rd) ops) text).events ∧
      (send (run (initState ar rd) ops) text).state = run (initState ar rd) ops) :=
  send_spec _ text (connTyped_run ar rd ops)

/-- C5 witness: the send theorem on a fresh client (closed) and on a
client with an open WebSocket transport. -/
theorem c5_witness :
    (send (run (initState true 1500) ([] : List Op)) "ping:1").ok = false ∧
    (send (run (initState true 1500)
      [Op.connectOk "ws://host/x", Op.transportOpen 0]) "ping:1").ok = true :=
  ⟨((c5_send_semantics true 1500 [] "ping:1").1 (by decide)).1,
   ((c5_send_semantics true 1500 [Op.connectOk "ws://host/x", Op.transportOpen 0]
      "ping:1").2 (by decide)).1⟩

theorem step_disconnect_closes (s : ClientState) (hct : connTyped s = true)
    (i : Nat) (t : Transport) (hc : s.connection = some i)
    (hti : s.transports[i]? = some t)
    (hst : t.status ≠ TransportStatus.closed) :
    (step s Op.disconnect).1.transports[i]? =
      some { t with status := TransportStatus.closed } := by
  rcases hk : s.connectionType with _ | k
  · simp [connTyped, hc, hk] at hct
  · rcases liveOf_some hti with ⟨hlen, _⟩
    cases k with
    | socketio => simp [step, hc, hk, hti, List.getElem?_set, hlen]
    | websocket =>
      have hor : t.status = TransportStatus.opened ∨
          t.status = TransportStatus.connecting := by
        cases hts : t.status
        · exact Or.inr rfl
        · exact Or.inl rfl
        · exact absurd hts hst
      simp [step, hc, hk, hti, hor, List.getElem?_set, hlen]

theorem step_close_no_resched (s : ClientState) (hm : s.manualClose = true)
    (hp : s.pendingTimer = false) (i : Nat) (j : ℚ) :
    (step s (Op.transportClose i j)).1.pendingTimer = false ∧
    (step s (Op.ioConnectError i j)).1.pendingTimer = false := by
  constructor
  · rcases hti : s.transports[i]? with _ | t
    · simp [step, hti, hp]
    · by_cases hst : t.status = TransportStatus.closed
      · simp [step, hti, hst, hp]
      · simp [step, hti, hst, hm, hp]
  · rcases hti : s.transports[i]? with _ | t
    · simp [step, hti, hp]
    · by_cases hks : t.kind = TransportKind.socketio ∧
        t.status = TransportStatus.connecting
      · simp [step, hti, hks, hm, hp]
      · simp [step, hti, hks, hp]

theorem step_timerFire_noop (s : ClientState) (hp : s.pendingTimer = false)
    (u : String) :
    step s (Op.timerFire u) = (s, []) := by
  simp [step, hp]

theorem step_disconnect_events (s : ClientState) (i : Nat) (t : Transport)
    (hc : s.connection = some i) (hti : s.transports[i]? = some t) :
    (step s Op.disconnect).2 =
      if s.connectionType = some TransportKind.socketio ∧
          t.status = TransportStatus.opened then
        [Event.warnLog "Disconnected", Event.obsClose]
      else [] := by
  rcases hk : s.connectionType with _ | k
  · simp [step, hc, hk, hti]
  · cases k with
    | socketio =>
      by_cases hst : t.status = TransportStatus.opened <;>
        simp [step, hc, hk, hti, hst]
    | websocket =>
      by_cases hst : t.status = TransportStatus.opened ∨
          t.status = TransportStatus.connecting <;>
        simp [step, hc, hk, hti, hst]

theorem step_disconnect_events_none (s : ClientState)
    (hc : s.connection = none) :
    (step s Op.disconnect).2 = [] := by
  simp [step, hc]

/-- C6: on every reachable state, `disconnect()` sets
`manualCloseRequested`, cancels any pending reconnect timer, clears the
transport reference, and closes the referenced transport if it is
open-or-opening; the only synchronous notifications are the warn log
and `onClose` that a connected Socket.IO transport's `disconnect`
handler fires from inside the call (nothing is emitted otherwise);
afterwards no close notification or connect-error reschedules and the
timer callback never fires, so no reconnect happens without an explicit
`connect()`; on a fresh client (no prior `connect()`) `disconnect()`
merely sets the flag and emits no events. -/
theorem c6_disconnect_semantics (ar : Bool) (rd : ℚ) (ops : List Op) :
    (step (run (initState ar rd) ops) Op.disconnect).1.manualClose = true ∧
    (step (run (initState ar rd) ops) Op.disconnect).1.pendingTimer = false ∧
    (step (run (initState ar rd) ops) Op.disconnect).1.connection = none ∧
    (∀ i t, (run (initState ar rd) ops).connection = some i →
      (run (initState ar rd) ops).transports[i]? = some t →
      t.status ≠ TransportStatus.closed →
      (step (run (initState ar rd) ops) Op.disconnect).1.transports[i]? =
        some { t with status := TransportStatus.closed }) ∧
    (∀ i t, (run (initState ar rd) ops).connection = some i →
      (run (initState ar rd) ops).transports[i]? = some t →
      (step (run (initState ar rd) ops) Op.disconnect).2 =
        if (run (initState ar rd) ops).connectionType =
              some TransportKind.socketio ∧
            t.status = TransportStatus.opened then
          [Event.warnLog "Disconnected", Event.obsClose]
        else []) ∧
    ((run (initState ar rd) ops).connection = none →
      (step (run (initState ar rd) ops) Op.disconnect).2 = []) ∧
    (∀ i j, (step (step (run (initState ar rd) ops) Op.disconnect).1
      (Op.transportClose i j)).1.pendingTimer = false) ∧
    (∀ i j, (step (step (run (initState ar rd) ops) Op.disconnect).1
      (Op.ioConnectError i j)).1.pendingTimer = false) ∧
    (∀ u, step (step (run (initState ar rd) ops) Op.disconnect).1 (Op.timerFire u) =
      ((step (run (initState ar rd) ops) Op.disconnect).1, [])) ∧
    step (initState ar rd) Op.disconnect =
      ({ initState ar rd with manualClose := true }, []) := by
  have hb := step_disconnect_basic (run (initState ar rd) ops)
  have hct := connTyped_run ar rd ops
  refine ⟨hb.1, hb.2.1, hb.2.2, ?_, ?_, ?_, ?_, ?_, ?_, ?_⟩
  · intro i t hc hti hst
    exact step_disconnect_closes _ hct i t hc hti hst
  · intro i t hc hti
    exact step_disconnect_events _ i t hc hti
  · intro hc
    exact step_disconnect_events_none _ hc
  · intro i j
    exact (step_close_no_resched _ hb.1 hb.2.1 i j).1
  · intro i j
    exact (step_close_no_resched _ hb.1 hb.2.1 i j).2
  · intro u
    exact step_timerFire_noop _ hb.2.1 u
  · rfl

/-- C6 witness: the disconnect theorem on a client with a connected
Socket.IO transport — the flag is set, the transport is closed, and the
synchronous `disconnect`-handler notifications are emitted. -/
theorem c6_witness :
    (step (run (initState true 1500) [Op.connectOk "https://host", Op.transportOpen 0])
      Op.disconnect).1.manualClose = true ∧
    (step (run (initState true 1500) [Op.connectOk "https://host", Op.transportOpen 0])
      Op.disconnect).1.transports[0]? =
      some { kind := TransportKind.socketio, status := TransportStatus.closed } ∧
    (step (run (initState true 1500) [Op.connectOk "https://host", Op.transportOpen 0])
      Op.disconnect).2 = [Event.warnLog "Disconnected", Event.obsClose] := by
  have h := c6_disconnect_semantics true 1500
    [Op.connectOk "https://host", Op.transportOpen 0]
  refine ⟨h.1, ?_, ?_⟩
  · exact h.2.2.2.1 0
      { kind := TransportKind.socketio, status := TransportStatus.opened }
      (by decide) (by decide) (by decide)
  · have he := h.2.2.2.2.1 0
      { kind := TransportKind.socketio, status := TransportStatus.opened }
      (by decide) (by decide)
    rw [he, if_pos ⟨by decide, rfl⟩]

/-- C2: on an unintended close (transport not yet closed, no manual
close requested, auto-reconnect on), the scheduled delay equals
`baseDelay + jitter + min(8000, attemptCount * 300)` with
`jitter = Math.random() * 250 ∈ [0, 250)`; `attemptCount` increments by
exactly one after the scheduled reconnect and resets to `0` on the next
successful open; attempt counts 0, 1, 2 give backoff components 0, 300
and 600 ms. -/
theorem c2_reconnect_delay (s : ClientState) (r : ℚ) (i : Nat) (t : Transport)
    (h0 : 0 ≤ r) (h1 : r < 1)
    (hti : s.transports[i]? = some t) (hst : t.status ≠ TransportStatus.closed)
    (hm : s.manualClose = false) (ha : s.autoReconnect = true)
    (hrd : s.reconnectDelay ≠ 0) :
    0 ≤ r * 250 ∧ r * 250 < 250 ∧
    (step s (Op.transportClose i (r * 250))).1.lastDelay =
      some (s.reconnectDelay + r * 250 + min 8000 ((s.attempt : ℚ) * 300)) ∧
    (step s (Op.transportClose i (r * 250))).1.attempt = s.attempt + 1 ∧
    (step s (Op.transportClose i (r * 250))).1.pendingTimer = true ∧
    (∀ k u, s.transports[k]? = some u → u.status = TransportStatus.connecting →
      (step s (Op.transportOpen k)).1.attempt = 0) ∧
    scheduleDelay s.reconnectDelay (r * 250) 0 = s.reconnectDelay + r * 250 + 0 ∧
    scheduleDelay s.reconnectDelay (r * 250) 1 = s.reconnectDelay + r * 250 + 300 ∧
    scheduleDelay s.reconnectDelay (r * 250) 2 = s.reconnectDelay + r * 250 + 600 := by
  have hj0 : 0 ≤ r * 250 := mul_nonneg h0 (by norm_num)
  have hj1 : r * 250 < 250 := by nlinarith
  refine ⟨hj0, hj1, ?_, ?_, ?_, ?_, ?_, ?_, ?_⟩
  · simp [step, hti, hst, hm, ha, scheduleReconnect, scheduleDelay, hrd]
  · simp [step, hti, hst, hm, ha, scheduleReconnect]
  · simp [step, hti, hst, hm, ha, scheduleReconnect]
  · intro k u hku hst2
    simp [step, hku, hst2]
  · norm_num [scheduleDelay, hrd]
  · norm_num [scheduleDelay, hrd]
  · norm_num [scheduleDelay, hrd]

/-- C2 witness: the delay theorem at `Math.random() = 1/2` on a client
whose only transport is connecting. -/
theorem c2_witness :
    (step (run (initState true 1500) [Op.connectOk "ws://host/x"])
        (Op.transportClose 0 ((1/2 : ℚ) * 250))).1.attempt =
      (run (initState true 1500) [Op.connectOk "ws://host/x"]).attempt + 1 ∧
    (1/2 : ℚ) * 250 < 250 := by
  have h := c2_reconnect_delay
    (run (initState true 1500) [Op.connectOk "ws://host/x"]) (1/2) 0
    { kind := TransportKind.websocket, status := TransportStatus.connecting }
    (by norm_num) (by norm_num) (by decide) (by decide) (by decide) (by decide)
    (by decide)
  exact ⟨h.2.2.2.1, h.2.1⟩

end WsClient
